import Mathlib

/-!
Verification of the geoblock IP-geolocation core (src/geoblock.py) against its
natural-language specification.

The development shallow-embeds the Python module:

* Python exceptions become the explicit error type PyErr; fallible code
  returns Except PyErr.
* Textual IP parsing (the stdlib ipaddress.ip_address used by the module)
  is embedded as an executable parser over List Char, following the
  CPython implementation of IPv4Address and IPv6Address literal parsing.
  Zone-id suffixes of IPv6 literals (a percent sign plus a scope) are not
  modelled; no claim involves them.
* The buggy data path of the module is kept: ip_range_from_csv stores the
  raw CSV strings in the RangeEntry fields, not the parsed addresses, so
  read_db is embedded over entries whose start and end have type String.
* The builtin sorted call inside read_db is embedded as an insertion sort
  threading the fallible dataclass comparison: entries are compared by
  their (start, end, data) field tuples, and a tie on (start, end) with
  differing payloads raises TypeError because RangeData is not an ordered
  dataclass, exactly as in Python.
* The generic binary-search lookup (bisect_right with a start key) is
  embedded over an arbitrary linear order, mirroring the duck typing of
  the Python function; the loop is written with an explicit fuel argument
  that is always called with fuel equal to the list length, which bounds
  the iteration count of the CPython while loop.
-/

/-- Kinds of Python exceptions raised by the embedded code, with their
message. ValueError covers malformed IP literals (the ParseError of the
spec), the version-mismatch errors, and tuple-unpacking failures. -/
inductive PyErr : Type where
  | valueError (msg : String)
  | typeError (msg : String)
  | indexError (msg : String)
  | attributeError (msg : String)
deriving DecidableEq

/-- A parsed IP address: the version tag (4 or 6) together with the numeric
value of the address (32 bits for v4, 128 bits for v6). This models the
ipaddress.IPv4Address and IPv6Address objects returned by ip_address. -/
inductive IPAddr : Type where
  | v4 (val : Nat)
  | v6 (val : Nat)
deriving DecidableEq

/-- The version attribute of a parsed address object. -/
def IPAddr.version : IPAddr → Nat
  | .v4 _ => 4
  | .v6 _ => 6

/-- The numeric value of a parsed address object. -/
def IPAddr.value : IPAddr → Nat
  | .v4 v => v
  | .v6 v => v

/-- Value of an ASCII hex digit, or none for any other character. This is
the digit set accepted by the CPython hextet parser. -/
def hexVal (c : Char) : Option Nat :=
  if c.isDigit then some (c.toNat - 48)
  else if 'a' ≤ c ∧ c ≤ 'f' then some (c.toNat - 87)
  else if 'A' ≤ c ∧ c ≤ 'F' then some (c.toNat - 55)
  else none

/-- Split a character list at every occurrence of the separator, keeping
empty pieces, exactly like the Python str.split method with a one-character
separator: the empty string yields one empty piece. -/
def splitOnChar (sep : Char) : List Char → List (List Char)
  | [] => [[]]
  | c :: cs =>
    if c = sep then [] :: splitOnChar sep cs
    else
      match splitOnChar sep cs with
      | [] => [[c]]
      | p :: ps => (c :: p) :: ps

/-- Parse one dotted-quad octet following CPython IPv4Address._parse_octet:
nonempty, ASCII digits only, at most three characters, no leading zero,
value at most 255. -/
def parse_octet (cs : List Char) : Option Nat :=
  if cs = [] then none
  else if ¬ cs.all Char.isDigit then none
  else if 3 < cs.length then none
  else if 1 < cs.length ∧ cs.head? = some '0' then none
  else
    let v := cs.foldl (fun a c => a * 10 + (c.toNat - 48)) 0
    if 255 < v then none else some v

/-- Parse an IPv4 literal following CPython IPv4Address._ip_int_from_string:
exactly four octets separated by dots. -/
def parse_v4_chars (cs : List Char) : Option Nat :=
  match splitOnChar '.' cs with
  | [a, b, c, d] =>
    match parse_octet a, parse_octet b, parse_octet c, parse_octet d with
    | some x, some y, some z, some w => some (((x * 256 + y) * 256 + z) * 256 + w)
    | _, _, _, _ => none
  | _ => none

/-- Parse one hextet following CPython IPv6Address._parse_hextet: hex
digits only, at most four characters, nonempty. -/
def parse_hextet (cs : List Char) : Option Nat :=
  if ¬ cs.all (fun c => (hexVal c).isSome) then none
  else if 4 < cs.length then none
  else if cs = [] then none
  else some (cs.foldl (fun a c => a * 16 + (hexVal c).getD 0) 0)

/-- Lowercase hex digit character for a value below 16. -/
def hexDigitChar (n : Nat) : Char :=
  if n < 10 then Char.ofNat (48 + n) else Char.ofNat (87 + n)

/-- Render a 16-bit value in lowercase hex without leading zeros, like the
percent-x format CPython uses when folding an embedded IPv4 suffix into two
synthetic hextets. -/
def toHex16 (n : Nat) : List Char :=
  if n = 0 then ['0']
  else if n / 4096 % 16 ≠ 0 then
    [hexDigitChar (n / 4096 % 16), hexDigitChar (n / 256 % 16),
     hexDigitChar (n / 16 % 16), hexDigitChar (n % 16)]
  else if n / 256 % 16 ≠ 0 then
    [hexDigitChar (n / 256 % 16), hexDigitChar (n / 16 % 16), hexDigitChar (n % 16)]
  else if n / 16 % 16 ≠ 0 then
    [hexDigitChar (n / 16 % 16), hexDigitChar (n % 16)]
  else [hexDigitChar (n % 16)]

/-- When the last colon-separated part contains a dot, parse it as an IPv4
literal and replace it by two synthetic hextets, as CPython does for
IPv4-embedded IPv6 literals; fail when that part is not a valid IPv4
literal. -/
def expandV4Suffix (parts : List (List Char)) : Option (List (List Char)) :=
  match parts.getLast? with
  | none => some parts
  | some last =>
    if last.contains '.' then
      match parse_v4_chars last with
      | none => none
      | some v => some (parts.dropLast ++ [toHex16 (v / 65536), toHex16 (v % 65536)])
    else some parts

/-- Indices of empty parts strictly inside the part list: the candidate
positions of the double-colon marker, as scanned by CPython. -/
def innerEmpties (parts : List (List Char)) : List Nat :=
  (List.range parts.length).filter
    (fun i => decide (0 < i ∧ i + 1 < parts.length ∧ parts[i]? = some []))

/-- Fold hextets into an accumulator, sixteen bits per part, failing on the
first part that is not a valid hextet. -/
def foldHextets (init : Nat) : List (List Char) → Option Nat
  | [] => some init
  | p :: ps =>
    match parse_hextet p with
    | none => none
    | some v => foldHextets (init * 65536 + v) ps

/-- Parse an IPv6 literal following CPython IPv6Address._ip_int_from_string:
at least three colon-separated parts, optional IPv4-embedded suffix, at most
nine parts, at most one double-colon that must skip at least one hextet, a
leading or trailing colon only as half of a double-colon, and exactly eight
hextets when there is no double-colon. -/
def parse_v6_chars (cs : List Char) : Option Nat :=
  let parts0 := splitOnChar ':' cs
  if parts0.length < 3 then none
  else
    match expandV4Suffix parts0 with
    | none => none
    | some parts =>
      if 9 < parts.length then none
      else
        match innerEmpties parts with
        | [] =>
          if parts.length = 8 ∧ parts[0]? ≠ some [] ∧ parts.getLast? ≠ some [] then
            foldHextets 0 parts
          else none
        | [i] =>
          match (if parts[0]? = some [] then (if i = 1 then some 0 else none) else some i),
                (if parts.getLast? = some [] then
                   (if parts.length - i - 1 = 1 then some 0 else none)
                 else some (parts.length - i - 1)) with
          | some partsHi, some partsLo =>
            if 8 - (partsHi + partsLo) < 1 then none
            else
              match foldHextets 0 (parts.take partsHi) with
              | none => none
              | some hiv =>
                foldHextets (hiv * 65536 ^ (8 - (partsHi + partsLo)))
                  (parts.drop (parts.length - partsLo))
          | _, _ => none
        | _ => none

/-- The stdlib ipaddress.ip_address factory on a string argument: try an
IPv4 literal, then an IPv6 literal, and raise ValueError when neither
parses. -/
def ip_address (address : String) : Except PyErr IPAddr :=
  match parse_v4_chars address.data with
  | some v => .ok (.v4 v)
  | none =>
    match parse_v6_chars address.data with
    | some v => .ok (.v6 v)
    | none => .error (.valueError (address ++ (" does not appear to be an IPv4 or IPv6 address")))

deriving instance DecidableEq for Except

/-- The payload dataclass RangeData of geoblock.py: an opaque country code
string, passed through unvalidated. -/
structure RangeData : Type where
  country_code : String
deriving DecidableEq

/-- The generic dataclass RangeEntry of geoblock.py: a start field, an end
field and a RangeData payload. The Python class is declared generic over
the address type; the CSV loader actually instantiates the fields with the
raw strings of the row, so the loading pipeline below uses RangeEntry
String, while the search functions stay generic like the Python code. -/
structure RangeEntry (α : Type) : Type where
  start : α
  «end» : α
  data : RangeData
deriving DecidableEq

/-- Construction RangeData star-data of geoblock.py line 97 and 100: the
dataclass constructor takes exactly one positional argument, so any other
arity raises TypeError. -/
def mkRangeData (data : List String) : Except PyErr RangeData :=
  match data with
  | [c] => .ok ⟨c⟩
  | [] => .error (.typeError ("RangeData missing 1 required positional argument"))
  | _ => .error (.typeError ("RangeData takes 1 positional argument but more were given"))

/-- Embedding of ip_range_from_csv (geoblock.py lines 81 to 102). The row
is unpacked as start, end, star-data (ValueError when shorter than two
fields), both IP fields are parsed for validation, the version homogeneity
of the row is checked, and then the entry is built FROM THE RAW STRINGS
start and end, not from the parsed start_ip and end_ip: this is the
documented slip of the source and is modelled as is. -/
def ip_range_from_csv (row : List String) : Except PyErr (RangeEntry String) :=
  match row with
  | start :: «end» :: data =>
    match ip_address start with
    | .error e => .error e
    | .ok start_ip =>
      match ip_address «end» with
      | .error e => .error e
      | .ok end_ip =>
        if start_ip.version = 4 ∧ end_ip.version = 4 then
          match mkRangeData data with
          | .error e => .error e
          | .ok d => .ok ⟨start, «end», d⟩
        else if start_ip.version = 6 ∧ end_ip.version = 6 then
          match mkRangeData data with
          | .error e => .error e
          | .ok d => .ok ⟨start, «end», d⟩
        else .error (.valueError ("IP address versions do not match"))
  | _ => .error (.valueError ("not enough values to unpack"))

/-- Attribute access of version on a str object: in the loaded entries the
start field is a raw string (see ip_range_from_csv), and Python attribute
lookup of version on str always raises AttributeError. -/
def str_version (_s : String) : Except PyErr Nat :=
  .error (.attributeError ("str object has no attribute version"))

/-- The generator all of first.start.version equal ip.start.version inside
all_same_version: evaluated left to right with short-circuit on the first
False, recomputing first.start.version at every element like the Python
generator expression does. -/
def versionsAllEqual (first : RangeEntry String) : List (RangeEntry String) → Except PyErr Bool
  | [] => .ok true
  | ip :: rest =>
    match str_version first.start with
    | .error e => .error e
    | .ok fv =>
      match str_version ip.start with
      | .error e => .error e
      | .ok v => if fv = v then versionsAllEqual first rest else .ok false

/-- Embedding of all_same_version (geoblock.py lines 105 to 117): index the
first element (IndexError on an empty list), compare every version with the
first one, and finally require the first version to be 4 or 6. Because the
start fields are raw strings, the version attribute accesses always raise
AttributeError. -/
def all_same_version (ip_ranges : List (RangeEntry String)) : Except PyErr Bool :=
  match ip_ranges with
  | [] => .error (.indexError ("list index out of range"))
  | first :: _ =>
    match versionsAllEqual first ip_ranges with
    | .error e => .error e
    | .ok b =>
      if b then
        match str_version first.start with
        | .error e => .error e
        | .ok v => .ok (decide (v = 4 ∨ v = 6))
      else .ok false

/-- Lexicographic comparison of character lists by code point: the Python
comparison of two str values. -/
def charListLt : List Char → List Char → Bool
  | [], [] => false
  | [], _ :: _ => true
  | _ :: _, [] => false
  | a :: as, b :: bs =>
    if a < b then true
    else if b < a then false
    else charListLt as bs

/-- Python str strict comparison, on the underlying characters. -/
def pyStrLt (a b : String) : Bool :=
  charListLt a.data b.data

/-- One comparison a below b between loaded entries, per the dataclass
order of RangeEntry: the field tuples (start, end, data) are compared
elementwise, testing equality first and deciding at the first differing
field. The start and end fields are raw strings here, compared by code
point. When start and end both tie, Python goes on to compare the two
RangeData payloads: RangeData is declared without order, so equal payloads
yield False (tuple exhausted) while differing payloads raise TypeError.
That fallible last step is modelled exactly. -/
def entryLt (a b : RangeEntry String) : Except PyErr Bool :=
  if a.start = b.start then
    if a.«end» = b.«end» then
      if a.data = b.data then .ok false
      else .error (.typeError ("lt not supported between instances of RangeData"))
    else .ok (pyStrLt a.«end» b.«end»)
  else .ok (pyStrLt a.start b.start)

/-- Insert an entry into an already sorted list, threading the fallible
entry comparison: the entry is placed before the first element it compares
strictly below, and the first comparison that raises aborts the sort. -/
def pyInsert (x : RangeEntry String) :
    List (RangeEntry String) → Except PyErr (List (RangeEntry String))
  | [] => .ok [x]
  | y :: ys =>
    match entryLt x y with
    | .error e => .error e
    | .ok true => .ok (x :: y :: ys)
    | .ok false =>
      match pyInsert x ys with
      | .error e => .error e
      | .ok zs => .ok (y :: zs)

/-- The builtin sorted call of read_db, modelled as an insertion sort
threading the fallible dataclass comparison. CPython uses Timsort, which
performs a different comparison sequence; but a comparison can only raise
on a pair tied on (start, end) with differing payloads, so on every input
free of such ties both sorts succeed with the same ascending output (full
ties are between indistinguishable entries), and on an input containing
such a pair both can only fail with the TypeError of that comparison.
Every theorem below either evaluates inputs without such ties, where the
two agree exactly, or asserts only that some exception is raised. -/
def pySorted : List (RangeEntry String) → Except PyErr (List (RangeEntry String))
  | [] => .ok []
  | x :: xs =>
    match pySorted xs with
    | .error e => .error e
    | .ok ys => pyInsert x ys

/-- Embedding of read_db (geoblock.py lines 120 to 136) from the sequence
of CSV rows: parse every row aborting on the first failure, sort, check
all_same_version and raise ValueError when it returns False, otherwise
return the sorted database. The file handling of the Python function is
out of scope; the rows are the input. -/
def read_db (rows : List (List String)) : Except PyErr (List (RangeEntry String)) :=
  match rows.mapM ip_range_from_csv with
  | .error e => .error e
  | .ok entries =>
    match pySorted entries with
    | .error e => .error e
    | .ok db =>
      match all_same_version db with
      | .error e => .error e
      | .ok b =>
        if b then .ok db
        else .error (.valueError ("IP address versions do not match"))

/-- The CPython bisect_right loop: while lo is less than hi, probe the
middle element and shrink the interval. The first argument is fuel bounding
the number of iterations; bisect_right below always supplies the list
length, which is an upper bound of hi minus lo, so the fuel never runs out
on the calls the embedded code makes. -/
def bisect_loop {α β : Type} [LinearOrder α] (key : β → α) (a : List β) (x : α) :
    Nat → Nat → Nat → Nat
  | 0, lo, _ => lo
  | f + 1, lo, hi =>
    if lo < hi then
      let mid := (lo + hi) / 2
      match a[mid]? with
      | some e =>
        if x < key e then bisect_loop key a x f lo mid
        else bisect_loop key a x f (mid + 1) hi
      | none => lo
    else lo

/-- The stdlib bisect.bisect_right with a key function, over the whole
list, as called by search_ip_range. -/
def bisect_right {α β : Type} [LinearOrder α] (a : List β) (x : α) (key : β → α) : Nat :=
  bisect_loop key a x a.length 0 a.length

/-- Embedding of search_ip_range (geoblock.py lines 139 to 156): an
upper-bound binary search on the start key, stepped back by one, and a
final containment test start at most ip at most end. Generic over the
ordered address type exactly as the duck-typed Python function is. -/
def search_ip_range {α : Type} [LinearOrder α] (database : List (RangeEntry α)) (ip : α) :
    Option RangeData :=
  let i := bisect_right database ip (fun x => x.start)
  if i = 0 then none
  else
    match database[i - 1]? with
    | some row => if row.start ≤ ip ∧ ip ≤ row.«end» then some row.data else none
    | none => none

/-- The Databases dataclass of geoblock.py: a v4 table and a v6 table.
Per the declared types the entries hold parsed addresses; every address of
one family is modelled by its numeric value, whose order is the Python
order of same-family address objects. -/
structure Databases : Type where
  v4 : List (RangeEntry Nat)
  v6 : List (RangeEntry Nat)

/-- Embedding of country_code (geoblock.py lines 159 to 175): parse the
textual address, pick the v4 table when the parsed version is 4 and the v6
table otherwise, search it, and project the country code out of the match
when there is one. -/
def country_code (databases : Databases) (address : String) : Except PyErr (Option String) :=
  match ip_address address with
  | .error e => .error e
  | .ok ip =>
    let db := if ip.version = 4 then databases.v4 else databases.v6
    match search_ip_range db ip.value with
    | some m => .ok (some m.country_code)
    | none => .ok none

/-- A two-table fixture used by the concrete witnesses: one v4 range from
1.0.0.0 to 1.0.0.255 labelled AU, and an empty v6 table. -/
def testDbs : Databases :=
  ⟨[⟨16777216, 16777471, ⟨"AU"⟩⟩], []⟩

/-- Unfolding equation of the bisect loop for positive fuel. -/
theorem bisect_loop_succ {α β : Type} [LinearOrder α] (key : β → α) (a : List β) (x : α)
    (f lo hi : Nat) :
    bisect_loop key a x (f + 1) lo hi =
      if lo < hi then
        match a[(lo + hi) / 2]? with
        | some e =>
          if x < key e then bisect_loop key a x f lo ((lo + hi) / 2)
          else bisect_loop key a x f ((lo + hi) / 2 + 1) hi
        | none => lo
      else lo := rfl

/-- Unfolding equation of the bisect loop once the probed element is known
to exist. -/
theorem bisect_loop_succ_some {α β : Type} [LinearOrder α] {key : β → α} {a : List β} {x : α}
    {f lo hi : Nat} {e : β} (hsome : a[(lo + hi) / 2]? = some e) (h : lo < hi) :
    bisect_loop key a x (f + 1) lo hi =
      if x < key e then bisect_loop key a x f lo ((lo + hi) / 2)
      else bisect_loop key a x f ((lo + hi) / 2 + 1) hi := by
  rw [bisect_loop_succ, if_pos h, hsome]

/-- On a list sorted by the key, the key is monotone along positions read
through the optional indexing operator. -/
theorem pairwise_key_le {α β : Type} [LinearOrder α] {key : β → α} {a : List β}
    (hp : List.Pairwise (fun u v => key u ≤ key v) a)
    {i j : Nat} {u v : β} (hij : i ≤ j) (hu : a[i]? = some u) (hv : a[j]? = some v) :
    key u ≤ key v := by
  rcases Nat.lt_or_ge i j with hlt | hge
  · obtain ⟨hi2, hiu⟩ := List.getElem?_eq_some.mp hu
    obtain ⟨hj2, hjv⟩ := List.getElem?_eq_some.mp hv
    have hrel := List.pairwise_iff_getElem.mp hp i j hi2 hj2 hlt
    rw [hiu, hjv] at hrel
    exact hrel
  · have heq : i = j := le_antisymm hij hge
    subst heq
    rw [hu] at hv
    injection hv with hv2
    rw [hv2]

/-- Invariant of the bisect loop: starting from a window that already
satisfies the bisect postcondition outside of it, and with fuel at least
the window width, the loop lands between lo and hi, every position below
the result has key at most x, and every position at or above it has key
above x. Sortedness of the list by the key is used to propagate the
boundary facts inward. -/
theorem bisect_loop_spec {α β : Type} [LinearOrder α] (key : β → α) (a : List β) (x : α)
    (hp : List.Pairwise (fun u v => key u ≤ key v) a) :
    ∀ f lo hi : Nat, hi - lo ≤ f → lo ≤ hi → hi ≤ a.length →
    (∀ k u, k < lo → a[k]? = some u → key u ≤ x) →
    (∀ k u, hi ≤ k → a[k]? = some u → x < key u) →
    lo ≤ bisect_loop key a x f lo hi ∧ bisect_loop key a x f lo hi ≤ hi ∧
    (∀ k u, k < bisect_loop key a x f lo hi → a[k]? = some u → key u ≤ x) ∧
    (∀ k u, bisect_loop key a x f lo hi ≤ k → a[k]? = some u → x < key u) := by
  intro f
  induction f with
  | zero =>
    intro lo hi hf hlh _ hlo hhi
    have heq : lo = hi := by omega
    subst heq
    exact ⟨le_refl _, le_refl _, hlo, hhi⟩
  | succ f ih =>
    intro lo hi hf hlh hha hlo hhi
    by_cases h : lo < hi
    · have hmlt : (lo + hi) / 2 < a.length := by omega
      have hsome : a[(lo + hi) / 2]? = some (a.get ⟨(lo + hi) / 2, hmlt⟩) :=
        List.getElem?_eq_getElem hmlt
      by_cases hx : x < key (a.get ⟨(lo + hi) / 2, hmlt⟩)
      · have hnew : ∀ k u, (lo + hi) / 2 ≤ k → a[k]? = some u → x < key u := by
          intro k u hk hu
          exact lt_of_lt_of_le hx (pairwise_key_le hp hk hsome hu)
        obtain ⟨h1, h2, h3, h4⟩ := ih lo ((lo + hi) / 2) (by omega) (by omega) (by omega) hlo hnew
        rw [bisect_loop_succ_some hsome h, if_pos hx]
        exact ⟨h1, by omega, h3, h4⟩
      · have hnew : ∀ k u, k < (lo + hi) / 2 + 1 → a[k]? = some u → key u ≤ x := by
          intro k u hk hu
          exact le_trans (pairwise_key_le hp (by omega : k ≤ (lo + hi) / 2) hu hsome)
            (le_of_not_lt hx)
        obtain ⟨h1, h2, h3, h4⟩ := ih ((lo + hi) / 2 + 1) hi (by omega) (by omega) hha hnew hhi
        rw [bisect_loop_succ_some hsome h, if_neg hx]
        exact ⟨by omega, h2, h3, h4⟩
    · rw [bisect_loop_succ, if_neg h]
      have heq : lo = hi := by omega
      exact ⟨le_refl _, by omega, hlo, fun k u hk hu => hhi k u (by omega) hu⟩

/-- Postcondition of bisect_right on a list sorted by the key: the result
is the upper-bound insertion point of x. -/
theorem bisect_right_spec {α β : Type} [LinearOrder α] (a : List β) (x : α) (key : β → α)
    (hp : List.Pairwise (fun u v => key u ≤ key v) a) :
    bisect_right a x key ≤ a.length ∧
    (∀ k u, k < bisect_right a x key → a[k]? = some u → key u ≤ x) ∧
    (∀ k u, bisect_right a x key ≤ k → a[k]? = some u → x < key u) := by
  have h := bisect_loop_spec key a x hp a.length 0 a.length (by omega) (by omega) (le_refl _)
      (fun k u hk _ => absurd hk (Nat.not_lt_zero k))
      (fun k u hk hu => by rw [List.getElem?_eq_none hk] at hu; cases hu)
  exact ⟨h.2.1, h.2.2.1, h.2.2.2⟩

/-- When the query is below the start of every entry, the lookup finds
nothing. -/
theorem search_eq_none_of_forall_lt {α : Type} [LinearOrder α]
    (db : List (RangeEntry α)) (q : α)
    (hp : List.Pairwise (fun u v : RangeEntry α => u.start ≤ v.start) db)
    (h : ∀ e ∈ db, q < e.start) : search_ip_range db q = none := by
  have hs := bisect_right_spec db q (fun x => x.start) hp
  have hzero : bisect_right db q (fun x => x.start) = 0 := by
    by_contra hne
    have h1 : 1 ≤ bisect_right db q (fun x => x.start) := Nat.one_le_iff_ne_zero.mpr hne
    have h0lt : 0 < db.length := by
      have := hs.1
      omega
    have hsome : db[0]? = some (db.get ⟨0, h0lt⟩) := List.getElem?_eq_getElem h0lt
    have hle : (db.get ⟨0, h0lt⟩).start ≤ q := hs.2.1 0 _ (by omega) hsome
    exact absurd hle (not_le.mpr (h _ (List.getElem?_mem hsome)))
  simp only [search_ip_range]
  rw [hzero]
  simp

/-- The lookup result on a sorted table, phrased through the rightmost
entry whose start is at most the query: it is returned exactly when it
also covers the query on the right. -/
theorem search_eq_candidate {α : Type} [LinearOrder α]
    (db : List (RangeEntry α)) (q : α)
    (hp : List.Pairwise (fun u v : RangeEntry α => u.start ≤ v.start) db)
    (j : Nat) (c : RangeEntry α) (hj : db[j]? = some c) (hcs : c.start ≤ q)
    (hafter : ∀ k u, j < k → db[k]? = some u → q < u.start) :
    search_ip_range db q = if c.start ≤ q ∧ q ≤ c.«end» then some c.data else none := by
  have hs := bisect_right_spec db q (fun x => x.start) hp
  have hr : bisect_right db q (fun x => x.start) = j + 1 := by
    rcases Nat.lt_trichotomy (bisect_right db q (fun x => x.start)) (j + 1) with hlt | heq | hgt
    · have hq : q < c.start := hs.2.2 j c (by omega) hj
      exact absurd hcs (not_le.mpr hq)
    · exact heq
    · have hj1len : j + 1 < db.length := by
        have := hs.1
        omega
      have hsome : db[j + 1]? = some (db.get ⟨j + 1, hj1len⟩) := List.getElem?_eq_getElem hj1len
      have hle : (db.get ⟨j + 1, hj1len⟩).start ≤ q := hs.2.1 (j + 1) _ (by omega) hsome
      have hgt2 : q < (db.get ⟨j + 1, hj1len⟩).start := hafter (j + 1) _ (by omega) hsome
      exact absurd hle (not_le.mpr hgt2)
  simp only [search_ip_range]
  rw [hr, if_neg (Nat.succ_ne_zero j)]
  simp only [Nat.add_sub_cancel]
  rw [hj]

/-- An entry whose end is below its start can never be returned: the final
containment test of the lookup fails on it. Stated for a table where every
entry is inverted, no sortedness needed. -/
theorem search_eq_none_of_inverted {α : Type} [LinearOrder α]
    (db : List (RangeEntry α)) (q : α)
    (h : ∀ e ∈ db, e.«end» < e.start) : search_ip_range db q = none := by
  simp only [search_ip_range]
  by_cases h0 : bisect_right db q (fun x => x.start) = 0
  · rw [if_pos h0]
  · rw [if_neg h0]
    cases hrow : db[bisect_right db q (fun x => x.start) - 1]? with
    | none => rfl
    | some row =>
      have hnot : ¬ (row.start ≤ q ∧ q ≤ row.«end») := by
        rintro ⟨h1, h2⟩
        exact absurd (le_trans h1 h2) (not_le.mpr (h row (List.getElem?_mem hrow)))
      show (if row.start ≤ q ∧ q ≤ row.«end» then some row.data else none) = none
      rw [if_neg hnot]

/-- Whatever the rows are, read_db raises: parsing may fail first, the
sort may fail on a tied pair with differing payloads, and otherwise the
family check fails on index zero of an empty list or on the version
attribute of a raw string. -/
theorem read_db_never_ok (rows : List (List String)) : ∃ er, read_db rows = .error er := by
  unfold read_db
  cases hm : rows.mapM ip_range_from_csv with
  | error e => exact ⟨e, rfl⟩
  | ok entries =>
    show ∃ er, (match pySorted entries with
      | Except.error e => Except.error e
      | Except.ok db =>
        match all_same_version db with
        | Except.error e => Except.error e
        | Except.ok b =>
          if b = true then Except.ok db
          else Except.error (PyErr.valueError ("IP address versions do not match"))) =
      Except.error er
    cases hs : pySorted entries with
    | error e => exact ⟨e, rfl⟩
    | ok db =>
      cases db with
      | nil => exact ⟨.indexError ("list index out of range"), rfl⟩
      | cons first rest =>
        exact ⟨.attributeError ("str object has no attribute version"), rfl⟩

/-- The sort itself can raise before any family check runs: two parsed
rows tied on (start, end) with different payloads make the dataclass
comparison reach the unordered RangeData payloads and raise TypeError.
On a two-element list CPython performs exactly this one comparison, so
the model and the original agree on this input. -/
theorem pySorted_tie_typeError :
    pySorted [⟨"1.0.0.0", "1.0.0.255", ⟨"AU"⟩⟩, ⟨"1.0.0.0", "1.0.0.255", ⟨"CN"⟩⟩] =
      .error (.typeError ("lt not supported between instances of RangeData")) := by decide

/-- Consequently read_db fails with that TypeError on the tied two-row
input, before all_same_version is ever reached. -/
theorem read_db_tie_typeError :
    read_db [["1.0.0.0", "1.0.0.255", "AU"], ["1.0.0.0", "1.0.0.255", "CN"]] =
      .error (.typeError ("lt not supported between instances of RangeData")) := by decide

/-- Every failure of ip_address is a ValueError carrying the parse
message: the ParseError kind of the specification. -/
theorem ip_address_error_is_valueError (s : String) (er : PyErr)
    (h : ip_address s = .error er) :
    er = .valueError (s ++ (" does not appear to be an IPv4 or IPv6 address")) := by
  unfold ip_address at h
  cases h4 : parse_v4_chars s.data with
  | some v => rw [h4] at h; cases h
  | none =>
    rw [h4] at h
    cases h6 : parse_v6_chars s.data with
    | some v => rw [h6] at h; cases h
    | none =>
      rw [h6] at h
      injection h with h2
      rw [h2]

/-- On a successfully parsed address, country_code dispatches on the
version: the v4 table for version 4 and the v6 table otherwise, and wraps
the projected search result. -/
theorem country_code_ok (dbs : Databases) (s : String) (a : IPAddr)
    (ha : ip_address s = .ok a) :
    country_code dbs s =
      .ok (Option.map RangeData.country_code
        (search_ip_range (if a.version = 4 then dbs.v4 else dbs.v6) a.value)) := by
  cases a with
  | v4 val =>
    unfold country_code
    rw [ha]
    show (match search_ip_range dbs.v4 val with
          | some m => Except.ok (some m.country_code)
          | none => Except.ok none) =
      Except.ok (Option.map RangeData.country_code (search_ip_range dbs.v4 val))
    cases hsr : search_ip_range dbs.v4 val with
    | some m => rfl
    | none => rfl
  | v6 val =>
    unfold country_code
    rw [ha]
    show (match search_ip_range dbs.v6 val with
          | some m => Except.ok (some m.country_code)
          | none => Except.ok none) =
      Except.ok (Option.map RangeData.country_code (search_ip_range dbs.v6 val))
    cases hsr : search_ip_range dbs.v6 val with
    | some m => rfl
    | none => rfl

/-- On a parse failure, country_code propagates the exception of
ip_address unchanged. -/
theorem country_code_error (dbs : Databases) (s : String) (er : PyErr)
    (h : ip_address s = .error er) : country_code dbs s = .error er := by
  unfold country_code
  rw [h]

/-- C1 (code bug): the claimed round-trip property presupposes a built
table, but read_db raises on every input because ip_range_from_csv stores
raw strings whose version attribute does not exist. On the round-trip
fixture row, whose two boundary literals do parse as version 4 addresses,
read_db fails with AttributeError instead of returning a table, so no
lookup of e.start can ever return e.country_code. -/
theorem claim_C1 :
    ip_address ("1.0.0.0") = .ok (.v4 16777216) ∧
    ip_address ("1.0.0.255") = .ok (.v4 16777471) ∧
    read_db [["1.0.0.0", "1.0.0.255", "AU"]] =
      .error (.attributeError ("str object has no attribute version")) :=
  ⟨by decide, by decide, by decide⟩

/-- C2 (confirmed): read_db raises an exception on every input and never
returns a table; the family check fails with IndexError on the empty entry
list and with AttributeError (version attribute of a raw string) on any
non-empty entry list. -/
theorem claim_C2 :
    (∀ rows, ∃ er, read_db rows = .error er) ∧
    all_same_version [] = .error (.indexError ("list index out of range")) ∧
    (∀ first rest, all_same_version (first :: rest) =
      .error (.attributeError ("str object has no attribute version"))) :=
  ⟨read_db_never_ok, rfl, fun _ _ => rfl⟩

/-- C3 (confirmed): on a three-field row whose two IP fields parse as
addresses of the same family, ip_range_from_csv returns the entry built
from the raw textual fields row zero and row one, not from the parsed
address values. -/
theorem claim_C3 (s e c : String) (a b : IPAddr)
    (hs : ip_address s = .ok a) (he : ip_address e = .ok b)
    (hv : a.version = b.version) :
    ip_range_from_csv [s, e, c] = .ok ⟨s, e, ⟨c⟩⟩ := by
  simp only [ip_range_from_csv]
  rw [hs, he]
  cases a with
  | v4 av =>
    cases b with
    | v4 bv => rfl
    | v6 bv => exact absurd (show (4 : Nat) = 6 from hv) (by decide)
  | v6 av =>
    cases b with
    | v4 bv => exact absurd (show (6 : Nat) = 4 from hv) (by decide)
    | v6 bv => rfl

/-- Witness for C3 at the concrete fixture row. -/
theorem claim_C3_witness :
    ip_range_from_csv ["1.0.0.0", "1.0.0.255", "AU"] =
      .ok ⟨"1.0.0.0", "1.0.0.255", ⟨"AU"⟩⟩ :=
  claim_C3 ("1.0.0.0") ("1.0.0.255") ("AU") (.v4 16777216) (.v4 16777471)
    (by decide) (by decide) rfl

/-- C4 (code bug): the sortedness invariant quantifies over built tables,
but none is ever built, and the sort the code performs before failing
orders the raw strings, not the numeric addresses: on the fixture the
string compare puts 10.0.0.0 before 9.0.0.0 although its numeric start is
larger, and read_db then raises AttributeError anyway. -/
theorem claim_C4 :
    ([["9.0.0.0", "9.0.0.255", "AU"], ["10.0.0.0", "10.0.0.255", "CN"]].mapM ip_range_from_csv =
      .ok [⟨"9.0.0.0", "9.0.0.255", ⟨"AU"⟩⟩, ⟨"10.0.0.0", "10.0.0.255", ⟨"CN"⟩⟩]) ∧
    pySorted [⟨"9.0.0.0", "9.0.0.255", ⟨"AU"⟩⟩, ⟨"10.0.0.0", "10.0.0.255", ⟨"CN"⟩⟩] =
      .ok [⟨"10.0.0.0", "10.0.0.255", ⟨"CN"⟩⟩, ⟨"9.0.0.0", "9.0.0.255", ⟨"AU"⟩⟩] ∧
    ip_address ("10.0.0.0") = .ok (.v4 167772160) ∧
    ip_address ("9.0.0.0") = .ok (.v4 150994944) ∧
    150994944 < 167772160 ∧
    read_db [["9.0.0.0", "9.0.0.255", "AU"], ["10.0.0.0", "10.0.0.255", "CN"]] =
      .error (.attributeError ("str object has no attribute version")) :=
  ⟨by decide, by decide, by decide, by decide, by decide, by decide⟩

/-- C5 (confirmed): on a table sorted by start, search_ip_range returns
none when the query is below every start, and otherwise returns the
country data of the rightmost entry whose start is at most the query
exactly when that candidate also covers the query on the right. -/
theorem claim_C5 {α : Type} [LinearOrder α] (db : List (RangeEntry α)) (q : α)
    (hp : List.Pairwise (fun u v : RangeEntry α => u.start ≤ v.start) db) :
    ((∀ e ∈ db, q < e.start) → search_ip_range db q = none) ∧
    (∀ (j : Nat) (c : RangeEntry α), db[j]? = some c → c.start ≤ q →
      (∀ (k : Nat) (u : RangeEntry α), j < k → db[k]? = some u → q < u.start) →
      search_ip_range db q = if c.start ≤ q ∧ q ≤ c.«end» then some c.data else none) :=
  ⟨search_eq_none_of_forall_lt db q hp,
   fun j c hj hcs hafter => search_eq_candidate db q hp j c hj hcs hafter⟩

/-- Witness for C5 on a concrete sorted two-entry table: a query inside
the second range is resolved to it, and a query below every start is not
found. -/
theorem claim_C5_witness :
    search_ip_range ([⟨1, 3, ⟨"AA"⟩⟩, ⟨5, 7, ⟨"BB"⟩⟩] : List (RangeEntry Nat)) 6 =
      some ⟨"BB"⟩ ∧
    search_ip_range ([⟨1, 3, ⟨"AA"⟩⟩, ⟨5, 7, ⟨"BB"⟩⟩] : List (RangeEntry Nat)) 0 = none := by
  have hafter : ∀ k (u : RangeEntry Nat), 1 < k →
      ([⟨1, 3, ⟨"AA"⟩⟩, ⟨5, 7, ⟨"BB"⟩⟩] : List (RangeEntry Nat))[k]? = some u →
      6 < u.start := by
    intro k u hk hu
    rw [List.getElem?_eq_none (by simp; omega)] at hu
    cases hu
  constructor
  · have h := (claim_C5 ([⟨1, 3, ⟨"AA"⟩⟩, ⟨5, 7, ⟨"BB"⟩⟩] : List (RangeEntry Nat)) 6
      (by decide)).2 1 ⟨5, 7, ⟨"BB"⟩⟩ (by decide) (by decide) hafter
    rw [h]
    decide
  · exact (claim_C5 ([⟨1, 3, ⟨"AA"⟩⟩, ⟨5, 7, ⟨"BB"⟩⟩] : List (RangeEntry Nat)) 0
      (by decide)).1 (by decide)

/-- C6 (confirmed): country_code parses the textual address, propagates
the parse ValueError unchanged on invalid input, dispatches to the v4
table on version 4 and to the v6 table on version 6, and on any parsed
address always returns ok, wrapping the search result, so a well-formed
unmatched address yields ok none rather than an exception. -/
theorem claim_C6 (dbs : Databases) (s : String) :
    (∀ er, ip_address s = .error er →
      country_code dbs s = .error er ∧
      er = .valueError (s ++ (" does not appear to be an IPv4 or IPv6 address"))) ∧
    (∀ a, ip_address s = .ok a → a.version = 4 →
      country_code dbs s =
        .ok (Option.map RangeData.country_code (search_ip_range dbs.v4 a.value))) ∧
    (∀ a, ip_address s = .ok a → a.version = 6 →
      country_code dbs s =
        .ok (Option.map RangeData.country_code (search_ip_range dbs.v6 a.value))) ∧
    (∀ a, ip_address s = .ok a → ∃ r, country_code dbs s = .ok r) := by
  refine ⟨?_, ?_, ?_, ?_⟩
  · intro er her
    exact ⟨country_code_error dbs s er her, ip_address_error_is_valueError s er her⟩
  · intro a ha h4
    rw [country_code_ok dbs s a ha, if_pos h4]
  · intro a ha h6
    have h4 : ¬ a.version = 4 := by
      rw [h6]
      decide
    rw [country_code_ok dbs s a ha, if_neg h4]
  · intro a ha
    exact ⟨_, country_code_ok dbs s a ha⟩

/-- Witness for C6 on the fixture databases: a v4 query inside the single
AU range resolves to AU, and a malformed literal fails with the parse
ValueError. -/
theorem claim_C6_witness :
    country_code testDbs ("1.0.0.5") = .ok (some ("AU")) ∧
    country_code testDbs ("definitely-not-an-ip") =
      .error (.valueError ("definitely-not-an-ip" ++
        (" does not appear to be an IPv4 or IPv6 address"))) := by
  constructor
  · have h := (claim_C6 testDbs ("1.0.0.5")).2.1 (.v4 16777221) (by decide) (by decide)
    rw [h]
    decide
  · exact ((claim_C6 testDbs ("definitely-not-an-ip")).1
      (.valueError ("definitely-not-an-ip" ++
        (" does not appear to be an IPv4 or IPv6 address"))) (by decide)).1

/-- C7 (confirmed): building from an empty sequence of rows never returns
a table; the failure is the IndexError that all_same_version raises when
indexing element zero of the empty list, which realizes the
EmptyDatabaseError kind of the specification. -/
theorem claim_C7 :
    read_db [] = .error (.indexError ("list index out of range")) := rfl

/-- C8 (confirmed): a three-field row whose two fields parse to different
families fails with the versions-do-not-match ValueError (the
FamilyMismatchError kind), a row with a malformed literal fails with the
parse ValueError of that literal (the ParseError kind), and a table
containing a mismatched row always makes read_db fail. -/
theorem claim_C8 :
    (∀ s e c a b, ip_address s = .ok a → ip_address e = .ok b → a.version ≠ b.version →
      ip_range_from_csv [s, e, c] =
        .error (.valueError ("IP address versions do not match"))) ∧
    (∀ s e c er, ip_address s = .error er → ip_range_from_csv [s, e, c] = .error er) ∧
    (∀ s e c a er, ip_address s = .ok a → ip_address e = .error er →
      ip_range_from_csv [s, e, c] = .error er) ∧
    (∀ rows row, row ∈ rows →
      ip_range_from_csv row = .error (.valueError ("IP address versions do not match")) →
      ∃ er2, read_db rows = .error er2) := by
  refine ⟨?_, ?_, ?_, ?_⟩
  · intro s e c a b hs he hv
    simp only [ip_range_from_csv]
    rw [hs, he]
    cases a with
    | v4 av =>
      cases b with
      | v4 bv => exact absurd rfl hv
      | v6 bv => rfl
    | v6 av =>
      cases b with
      | v4 bv => rfl
      | v6 bv => exact absurd rfl hv
  · intro s e c er hs
    simp only [ip_range_from_csv]
    rw [hs]
  · intro s e c a er hs he
    simp only [ip_range_from_csv]
    rw [hs, he]
  · intro rows row hmem hrow
    exact read_db_never_ok rows

/-- Witness for C8: the mixed-family fixture row fails with the
version-mismatch ValueError, and a malformed start literal fails with its
parse ValueError. -/
theorem claim_C8_witness :
    ip_range_from_csv ["1.0.0.0", "::1", "US"] =
      .error (.valueError ("IP address versions do not match")) ∧
    ip_range_from_csv ["bogus", "::1", "US"] =
      .error (.valueError ("bogus" ++ (" does not appear to be an IPv4 or IPv6 address"))) :=
  ⟨claim_C8.1 ("1.0.0.0") ("::1") ("US") (.v4 16777216) (.v6 1)
      (by decide) (by decide) (by decide),
   claim_C8.2.1 ("bogus") ("::1") ("US")
      (.valueError ("bogus" ++ (" does not appear to be an IPv4 or IPv6 address")))
      (by decide)⟩

/-- C9 counterexample: on a two-row input that mixes a v4 range and a v6
range, read_db fails with AttributeError, not with the version-mismatch
ValueError the claim calls VersionMismatchError, and no row index is
reported. -/
theorem claim_C9_counterexample :
    read_db [["1.0.0.0", "1.0.0.255", "AU"], ["::1", "::2", "US"]] =
      .error (.attributeError ("str object has no attribute version")) ∧
    PyErr.attributeError ("str object has no attribute version") ≠
      PyErr.valueError ("IP address versions do not match") :=
  ⟨by decide, by decide⟩

/-- C9 (corrected): the family check the claim describes is the intent of
all_same_version, but it never completes; build never returns any table,
in particular never one containing mixed families, and on the
mixed-family input of the counterexample the failure is the
AttributeError of the version access on a raw string, not a
version-mismatch error, and no row index is reported. -/
theorem claim_C9_amended :
    (∀ rows, ∃ er, read_db rows = .error er) ∧
    read_db [["1.0.0.0", "1.0.0.255", "AU"], ["::1", "::2", "US"]] =
      .error (.attributeError ("str object has no attribute version")) :=
  ⟨read_db_never_ok, by decide⟩

/-- C10 (confirmed): a row whose start address is numerically above its
end address is accepted by parsing with no ordering check, and an entry
whose end is below its start can never be returned by the lookup, because
the final containment test requires start at most query at most end. -/
theorem claim_C10 :
    (ip_address ("9.0.0.0") = .ok (.v4 150994944) ∧
     ip_address ("1.0.0.0") = .ok (.v4 16777216) ∧
     16777216 < 150994944 ∧
     ip_range_from_csv ["9.0.0.0", "1.0.0.0", "AA"] =
       .ok ⟨"9.0.0.0", "1.0.0.0", ⟨"AA"⟩⟩) ∧
    (∀ (α : Type) [LinearOrder α] (db : List (RangeEntry α)) (q : α),
      (∀ e ∈ db, e.«end» < e.start) → search_ip_range db q = none) := by
  constructor
  · exact ⟨by decide, by decide, by decide, by decide⟩
  · intro α inst db q h
    exact search_eq_none_of_inverted db q h

/-- Witness for C10: a one-entry inverted table over Nat never matches. -/
theorem claim_C10_witness :
    search_ip_range ([⟨5, 3, ⟨"ZZ"⟩⟩] : List (RangeEntry Nat)) 4 = none :=
  claim_C10.2 Nat ([⟨5, 3, ⟨"ZZ"⟩⟩] : List (RangeEntry Nat)) 4 (by decide)
